import Mathlib

/-!
Shallow embedding of `src/webpack.config.js` (a webpack build configuration).

The file is a single CommonJS module that reads one environment variable
(`NODE_ENV`), derives the booleans `isDev` / `isProd` from it, and exports a
static configuration object assembled by a handful of helper functions
(`optimization`, `filename`, `cssLoaders`, `babelOptions`, `jsLoaders`,
`plugins`).

The embedding models the process environment as a map from variable names to
optional string values, `path.resolve(__dirname, rel)` as concatenation of the
module directory with the relative path, plugin and loader instantiations as
constructors of inductive types carrying the options actually passed in the
source, and the exported object as a Lean structure.  Optional configuration
fields that the source only sets on one branch (such as
`optimization().minimizer`) are modelled as `Option`, with `none` standing for
the absent field.
-/

/-- The process environment: a map from environment-variable names to their
optional string values (`none` models an unset variable). -/
def Env : Type := String → Option String

/-- `const isDev = process.env.NODE_ENV === 'development';` -/
def isDev (env : Env) : Bool := env "NODE_ENV" == some "development"

/-- `const isProd = !isDev;` -/
def isProd (env : Env) : Bool := !(isDev env)

/-- `path.resolve(dirname, rel)`, modelled as joining the module directory with
the relative path. -/
def pathResolve (dirname rel : String) : String := dirname ++ "/" ++ rel

/-- The options object built by `babelOptions`: a list of Babel presets and a
list of Babel plugins. -/
structure BabelOptions where
  presets : List String
  plugins : List String
deriving DecidableEq, Repr

/-- A webpack plugin instantiation, carrying the options the source passes to
its constructor. -/
inductive Plugin where
  | HTMLWebpackPlugin (template : String) (collapseWhitespace : Bool)
  | CleanWebpackPlugin
  | CopyWebpackPlugin (fromPath : String) (toPath : String)
  | MiniCssExtractPlugin (filename : String)
  | BundleAnalyzerPlugin
  | OptimizeCssAssetWebpackPlugin
  | TerserWebpackPlugin
deriving DecidableEq, Repr

/-- The constructor name of a plugin instance, used to speak about the kind of
plugin independently of the options it was built with. -/
def Plugin.name : Plugin → String
  | .HTMLWebpackPlugin _ _ => "HTMLWebpackPlugin"
  | .CleanWebpackPlugin => "CleanWebpackPlugin"
  | .CopyWebpackPlugin _ _ => "CopyWebpackPlugin"
  | .MiniCssExtractPlugin _ => "MiniCssExtractPlugin"
  | .BundleAnalyzerPlugin => "BundleAnalyzerPlugin"
  | .OptimizeCssAssetWebpackPlugin => "OptimizeCssAssetWebpackPlugin"
  | .TerserWebpackPlugin => "TerserWebpackPlugin"

/-- One element of a webpack loader chain: either the `MiniCssExtractPlugin`
loader object (with its `hmr` / `reloadAll` options), a loader referenced by
its package name, or a `babel-loader` object with its options. -/
inductive Loader where
  | miniCssExtract (hmr : Bool) (reloadAll : Bool)
  | named (pkg : String)
  | babel (options : BabelOptions)
deriving DecidableEq, Repr

/-- The `splitChunks` fragment of the optimization config. -/
structure SplitChunksConfig where
  chunks : String
deriving DecidableEq, Repr

/-- The object returned by `optimization()`; `minimizer := none` models the
field being absent from the returned object. -/
structure OptimizationConfig where
  splitChunks : SplitChunksConfig
  minimizer : Option (List Plugin)
deriving DecidableEq, Repr

/--
```
const optimization = () => {
    const config = { splitChunks: { chunks: 'all' } };
    if (isProd) {
        config.minimizer = [
            new OptimizeCssAssetWebpackPlugin(),
            new TerserWebpackPlugin(),
        ];
    }
    return config;
};
```
-/
def optimization (env : Env) : OptimizationConfig :=
  let config : OptimizationConfig :=
    { splitChunks := { chunks := "all" }, minimizer := none }
  if isProd env then
    { config with
        minimizer := some [Plugin.OptimizeCssAssetWebpackPlugin,
                           Plugin.TerserWebpackPlugin] }
  else
    config

/-- `const filename = (ext) => (isDev ? `[name].${ext}` : `[name].[hash].${ext}`);` -/
def filename (env : Env) (ext : String) : String :=
  if isDev env then "[name]." ++ ext else "[name].[hash]." ++ ext

/--
```
const cssLoaders = (extra) => {
    const loaders = [
        { loader: MiniCssExtractPlugin.loader,
          options: { hmr: isDev, reloadAll: true } },
        'css-loader',
    ];
    if (extra) { loaders.push(extra); }
    return loaders;
};
```
The `extra` argument is an optional loader name; `if (extra)` is JavaScript
truthiness, so an omitted argument (`none`) and the empty string are falsy. -/
def cssLoaders (env : Env) (extra : Option String) : List Loader :=
  let loaders : List Loader :=
    [Loader.miniCssExtract (isDev env) true, Loader.named "css-loader"]
  match extra with
  | some e => if e == "" then loaders else loaders ++ [Loader.named e]
  | none => loaders

/--
```
const babelOptions = (preset) => {
    const opts = {
        presets: ['@babel/preset-env'],
        plugins: ['@babel/plugin-proposal-class-properties'],
    };
    if (preset) { opts.presets.push(preset); }
    return opts;
};
```
As with `cssLoaders`, `if (preset)` is JavaScript truthiness on the optional
string argument. -/
def babelOptions (preset : Option String) : BabelOptions :=
  let opts : BabelOptions :=
    { presets := ["@babel/preset-env"],
      plugins := ["@babel/plugin-proposal-class-properties"] }
  match preset with
  | some p => if p == "" then opts else { opts with presets := opts.presets ++ [p] }
  | none => opts

/--
```
const jsLoaders = () => {
    const loaders = [{ loader: 'babel-loader', options: babelOptions() }];
    if (isDev) { loaders.push('eslint-loader'); }
    return loaders;
};
```
-/
def jsLoaders (env : Env) : List Loader :=
  let loaders : List Loader := [Loader.babel (babelOptions none)]
  if isDev env then loaders ++ [Loader.named "eslint-loader"] else loaders

/--
```
const plugins = () => {
    const base = [
        new HTMLWebpackPlugin({ template: './index.html',
                                minify: { collapseWhitespace: isProd } }),
        new CleanWebpackPlugin(),
        new CopyWebpackPlugin([{ from: path.resolve(__dirname, 'src/favicon.ico'),
                                 to: path.resolve(__dirname, 'dist') }]),
        new MiniCssExtractPlugin({ filename: filename('css') }),
    ];
    if (isProd) { base.push(new BundleAnalyzerPlugin()); }
    return base;
};
```
-/
def plugins (env : Env) (dirname : String) : List Plugin :=
  let base : List Plugin :=
    [Plugin.HTMLWebpackPlugin "./index.html" (isProd env),
     Plugin.CleanWebpackPlugin,
     Plugin.CopyWebpackPlugin (pathResolve dirname "src/favicon.ico")
       (pathResolve dirname "dist"),
     Plugin.MiniCssExtractPlugin (filename env "css")]
  if isProd env then base ++ [Plugin.BundleAnalyzerPlugin] else base

/-- The value associated with a named entry bundle: either a single source file
(a plain string in the source) or a list of source files (an array). -/
inductive EntryValue where
  | single (file : String)
  | list (files : List String)
deriving DecidableEq, Repr

/-- Whether an entry value is an array of source files. -/
def EntryValue.isList : EntryValue → Bool
  | .single _ => false
  | .list _ => true

/-- One element of `module.rules`: the `test` pattern (regex source text), the
optional `exclude` pattern, and either a `use` loader chain or a single
`loader` object, as written in the source. -/
structure ModuleRule where
  test : String
  exclude : Option String
  use : Option (List Loader)
  loader : Option Loader
deriving DecidableEq, Repr

/-- The `output` fragment of the exported configuration. -/
structure OutputConfig where
  filename : String
  path : String
deriving DecidableEq, Repr

/-- The `resolve` fragment of the exported configuration. -/
structure ResolveConfig where
  extensions : List String
  aliases : List (String × String)
deriving DecidableEq, Repr

/-- The `devServer` fragment of the exported configuration. -/
structure DevServerConfig where
  port : Nat
  hot : Bool
deriving DecidableEq, Repr

/-- The exported configuration object (`module.exports`). -/
structure WebpackConfig where
  context : String
  mode : String
  entry : List (String × EntryValue)
  output : OutputConfig
  resolve : ResolveConfig
  optimization : OptimizationConfig
  devServer : DevServerConfig
  devtool : String
  plugins : List Plugin
  moduleRules : List ModuleRule
deriving DecidableEq, Repr

/-- `module.exports = { ... };` — the whole exported configuration, as a
function of the process environment and of the module directory `__dirname`. -/
def moduleExports (env : Env) (dirname : String) : WebpackConfig :=
  { context := pathResolve dirname "src",
    mode := "development",
    entry := [("main", EntryValue.list ["@babel/polyfill", "./index.jsx"]),
              ("analytics", EntryValue.single "./analytics.ts")],
    output := { filename := filename env "js", path := pathResolve dirname "dist" },
    resolve :=
      { extensions := [".js", ".json", ".png"],
        aliases := [("@models", pathResolve dirname "src/models"),
                    ("@", pathResolve dirname "src")] },
    optimization := optimization env,
    devServer := { port := 4200, hot := isDev env },
    devtool := if isDev env then "source-map" else "",
    plugins := plugins env dirname,
    moduleRules :=
      [{ test := "\\.css$", exclude := none,
         use := some (cssLoaders env none), loader := none },
       { test := "\\.less$", exclude := none,
         use := some (cssLoaders env (some "less-loader")), loader := none },
       { test := "\\.s[ac]ss$", exclude := none,
         use := some (cssLoaders env (some "sass-loader")), loader := none },
       { test := "\\.(png|jpg|svg|gif)$", exclude := none,
         use := some [Loader.named "file-loader"], loader := none },
       { test := "\\.(ttf|woff|woff2|eot)$", exclude := none,
         use := some [Loader.named "file-loader"], loader := none },
       { test := "\\.xml$", exclude := none,
         use := some [Loader.named "xml-loader"], loader := none },
       { test := "\\.csv$", exclude := none,
         use := some [Loader.named "csv-loader"], loader := none },
       { test := "\\.js$", exclude := some "node_modules",
         use := some (jsLoaders env), loader := none },
       { test := "\\.ts$", exclude := some "node_modules", use := none,
         loader := some (Loader.babel (babelOptions (some "@babel/preset-typescript"))) },
       { test := "\\.jsx$", exclude := some "node_modules", use := none,
         loader := some (Loader.babel (babelOptions (some "@babel/preset-react"))) }] }

/-- A concrete environment where `NODE_ENV` is set to `development`. -/
def devEnv : Env := fun v => if v == "NODE_ENV" then some "development" else none

/-- A concrete environment where `NODE_ENV` is set to `production`. -/
def prodEnv : Env := fun v => if v == "NODE_ENV" then some "production" else none

/-- A concrete environment where no variable is set. -/
def emptyEnv : Env := fun _ => none

/-- C1: for every environment, `filename(ext)` is the template
`[name].[hash].` followed by `ext` in production mode, and `[name].` followed
by `ext` in development mode — so the template contains a hash placeholder
exactly in production mode. -/
theorem C1_filename_template (env : Env) (ext : String) :
    (isProd env = true → filename env ext = "[name].[hash]." ++ ext) ∧
    (isDev env = true → filename env ext = "[name]." ++ ext) := by
  constructor
  · intro h
    have hd : isDev env = false := by
      cases hb : isDev env
      · rfl
      · rw [isProd, hb] at h
        exact absurd h (by decide)
    simp [filename, hd]
  · intro h
    simp [filename, h]

/-- Witness for C1 at the concrete environments `prodEnv` and `devEnv`. -/
theorem C1_filename_template_witness :
    filename prodEnv "js" = "[name].[hash]." ++ "js" ∧
    filename devEnv "css" = "[name]." ++ "css" :=
  ⟨(C1_filename_template prodEnv "js").1 (by decide),
   (C1_filename_template devEnv "css").2 (by decide)⟩

/-- C2: `optimization()` returns a config whose `minimizer` list is exactly
the CSS minimizer followed by the JS minimizer when the environment is
production, has no `minimizer` field at all (`none`) when the environment is
development, and in both cases has `splitChunks.chunks = 'all'`. -/
theorem C2_optimization_minimizer (env : Env) :
    (isProd env = true →
      (optimization env).minimizer =
        some [Plugin.OptimizeCssAssetWebpackPlugin, Plugin.TerserWebpackPlugin]) ∧
    (isDev env = true → (optimization env).minimizer = none) ∧
    (optimization env).splitChunks.chunks = "all" := by
  refine ⟨?_, ?_, ?_⟩
  · intro h
    simp [optimization, h]
  · intro h
    simp [optimization, isProd, h]
  · cases h : isProd env <;> simp [optimization, h]

/-- Witness for C2 at the concrete environments `prodEnv` and `devEnv`. -/
theorem C2_optimization_minimizer_witness :
    (optimization prodEnv).minimizer =
      some [Plugin.OptimizeCssAssetWebpackPlugin, Plugin.TerserWebpackPlugin] ∧
    (optimization devEnv).minimizer = none :=
  ⟨(C2_optimization_minimizer prodEnv).1 (by decide),
   (C2_optimization_minimizer devEnv).2.1 (by decide)⟩

/-- C3: for every environment, `plugins()` starts with exactly the four base
plugins (HTML generation, output-directory cleaning, static-file copying,
style-sheet extraction) in that order, and its fifth element is the
`BundleAnalyzerPlugin` exactly when the environment is production (in
development there is no fifth element). -/
theorem C3_plugins_list (env : Env) (dirname : String) :
    (plugins env dirname).take 4 =
      [Plugin.HTMLWebpackPlugin "./index.html" (isProd env),
       Plugin.CleanWebpackPlugin,
       Plugin.CopyWebpackPlugin (pathResolve dirname "src/favicon.ico")
         (pathResolve dirname "dist"),
       Plugin.MiniCssExtractPlugin (filename env "css")] ∧
    (plugins env dirname).map Plugin.name =
      ["HTMLWebpackPlugin", "CleanWebpackPlugin", "CopyWebpackPlugin",
       "MiniCssExtractPlugin"] ++
        (if isProd env = true then ["BundleAnalyzerPlugin"] else []) ∧
    (plugins env dirname)[4]? =
      (if isProd env = true then some Plugin.BundleAnalyzerPlugin else none) := by
  cases h : isProd env <;>
    simp [plugins, h, Plugin.name, List.take, List.map]

/-- C4: every environment-dependent difference is controlled by the single
boolean `isDev` derived from `NODE_ENV`: two environments with the same
`isDev` value yield identical exported configurations; and that boolean alone
decides minification (the `minimizer` field and the HTML
`collapseWhitespace` option hold exactly under production), source maps
(`devtool` is `source-map` under development and disabled, the empty string,
otherwise), hot reload (`devServer.hot` equals `isDev`), and the
production-only plugin and minimizer additions. -/
theorem C4_single_env_switch (e1 e2 : Env) (d : String) :
    (isDev e1 = isDev e2 → moduleExports e1 d = moduleExports e2 d) ∧
    ((moduleExports e1 d).devtool = if isDev e1 = true then "source-map" else "") ∧
    ((moduleExports e1 d).devServer.hot = isDev e1) ∧
    ((optimization e1).minimizer ≠ none ↔ isProd e1 = true) ∧
    ((plugins e1 d)[0]? =
      some (Plugin.HTMLWebpackPlugin "./index.html" (isProd e1))) ∧
    (Plugin.BundleAnalyzerPlugin ∈ plugins e1 d ↔ isProd e1 = true) := by
  refine ⟨?_, rfl, rfl, ?_, ?_, ?_⟩
  · intro h
    simp only [moduleExports, plugins, optimization, cssLoaders, jsLoaders,
      filename, isProd, h]
  · cases h : isProd e1 <;> simp [optimization, h]
  · cases h : isProd e1 <;> simp [plugins, h]
  · cases h : isProd e1 <;> simp [plugins, h]

/-- Witness for C4: two concrete environments that differ but agree on
`isDev` produce the same configuration, and the facet equations hold at
`prodEnv`. -/
theorem C4_single_env_switch_witness :
    moduleExports prodEnv "." = moduleExports emptyEnv "." ∧
    (optimization prodEnv).minimizer ≠ none ∧
    Plugin.BundleAnalyzerPlugin ∈ plugins prodEnv "." :=
  ⟨(C4_single_env_switch prodEnv emptyEnv ".").1 (by decide),
   (C4_single_env_switch prodEnv emptyEnv ".").2.2.2.1.mpr (by decide),
   (C4_single_env_switch prodEnv emptyEnv ".").2.2.2.2.2.mpr (by decide)⟩

/-- C5 counterexample: the `analytics` entry maps to the single source file
`./analytics.ts` (a plain string in the source), not to a list, refuting the
claim that every named entry maps to a list of source files. -/
theorem C5_entry_counterexample :
    ("analytics", EntryValue.single "./analytics.ts") ∈
      (moduleExports emptyEnv ".").entry ∧
    EntryValue.isList (EntryValue.single "./analytics.ts") = false := by
  refine ⟨?_, rfl⟩
  simp [moduleExports]

/-- C5 (amended): the entry mapping has exactly two named bundles — `main`,
which maps to a list of source files, and `analytics`, which maps to a single
source file rather than a list. -/
theorem C5_entry_shape (env : Env) (d : String) :
    (moduleExports env d).entry =
      [("main", EntryValue.list ["@babel/polyfill", "./index.jsx"]),
       ("analytics", EntryValue.single "./analytics.ts")] ∧
    EntryValue.isList (EntryValue.list ["@babel/polyfill", "./index.jsx"]) = true ∧
    EntryValue.isList (EntryValue.single "./analytics.ts") = false :=
  ⟨rfl, rfl, rfl⟩

/-- C6: the three scriptable-source rules all transpile through
`babel-loader` with the `@babel/preset-env` preset and the class-properties
plugin; the `.ts` rule appends `@babel/preset-typescript`, the `.jsx` rule
appends `@babel/preset-react`, and the `.js` rule adds no extra preset. -/
theorem C6_scriptable_rules (env : Env) (d : String) :
    babelOptions none =
      { presets := ["@babel/preset-env"],
        plugins := ["@babel/plugin-proposal-class-properties"] } ∧
    babelOptions (some "@babel/preset-typescript") =
      { presets := ["@babel/preset-env", "@babel/preset-typescript"],
        plugins := ["@babel/plugin-proposal-class-properties"] } ∧
    babelOptions (some "@babel/preset-react") =
      { presets := ["@babel/preset-env", "@babel/preset-react"],
        plugins := ["@babel/plugin-proposal-class-properties"] } ∧
    (moduleExports env d).moduleRules[7]? =
      some { test := "\\.js$", exclude := some "node_modules",
             use := some (jsLoaders env), loader := none } ∧
    (jsLoaders env)[0]? = some (Loader.babel (babelOptions none)) ∧
    (moduleExports env d).moduleRules[8]? =
      some { test := "\\.ts$", exclude := some "node_modules", use := none,
             loader := some (Loader.babel
               (babelOptions (some "@babel/preset-typescript"))) } ∧
    (moduleExports env d).moduleRules[9]? =
      some { test := "\\.jsx$", exclude := some "node_modules", use := none,
             loader := some (Loader.babel
               (babelOptions (some "@babel/preset-react"))) } := by
  refine ⟨rfl, rfl, rfl, rfl, ?_, rfl, rfl⟩
  cases h : isDev env <;> simp [jsLoaders, h]

/-- C7: the dev-server options are the fixed port 4200 (independent of the
environment) together with a hot-reload flag equal to the development
boolean: `devServer.hot` is true exactly when `isDev` holds. -/
theorem C7_devServer (env : Env) (d : String) :
    (moduleExports env d).devServer.port = 4200 ∧
    (moduleExports env d).devServer.hot = isDev env ∧
    ((moduleExports env d).devServer.hot = true ↔ isDev env = true) :=
  ⟨rfl, rfl, Iff.rfl⟩

/-- Witness for C7 at the concrete environments `devEnv` and `prodEnv`. -/
theorem C7_devServer_witness :
    (moduleExports devEnv ".").devServer.hot = true ∧
    (moduleExports prodEnv ".").devServer.hot = false :=
  ⟨(C7_devServer devEnv ".").2.2.mpr (by decide),
   by rw [(C7_devServer prodEnv ".").2.1]; decide⟩

/-- C8: the helper functions are pure: they read nothing from the process
environment except the development flag, so any two environments agreeing on
`isDev` yield identical results on the same arguments (`babelOptions` takes
no environment at all in the embedding, because the source function reads no
ambient state; its determinism is definitional). -/
theorem C8_helpers_pure (e1 e2 : Env) (ext : String)
    (extra preset : Option String) :
    isDev e1 = isDev e2 →
      filename e1 ext = filename e2 ext ∧
      cssLoaders e1 extra = cssLoaders e2 extra ∧
      babelOptions preset = babelOptions preset ∧
      jsLoaders e1 = jsLoaders e2 ∧
      optimization e1 = optimization e2 := by
  intro h
  refine ⟨?_, ?_, rfl, ?_, ?_⟩
  · simp [filename, h]
  · cases extra <;> simp [cssLoaders, h]
  · simp [jsLoaders, h]
  · simp [optimization, isProd, h]

/-- Witness for C8: two different concrete environments with the same flag
(`NODE_ENV=production` and unset) give identical helper results. -/
theorem C8_helpers_pure_witness :
    filename prodEnv "js" = filename emptyEnv "js" ∧
    cssLoaders prodEnv (some "less-loader") = cssLoaders emptyEnv (some "less-loader") ∧
    babelOptions none = babelOptions none ∧
    jsLoaders prodEnv = jsLoaders emptyEnv ∧
    optimization prodEnv = optimization emptyEnv :=
  C8_helpers_pure prodEnv emptyEnv "js" (some "less-loader") none (by decide)

/-- C9: for every value of `NODE_ENV` (including unset), `isProd` is the
negation of `isDev`, so exactly one of the two holds; `isDev` holds exactly
when the variable is the string `development`, and any other value — for
example `production`, the empty string, or an unset variable — yields the
production configuration. -/
theorem C9_env_partition (env : Env) :
    isProd env = !(isDev env) ∧
    xor (isDev env) (isProd env) = true ∧
    (isDev env = true ↔ env "NODE_ENV" = some "development") ∧
    (env "NODE_ENV" ≠ some "development" → isProd env = true) := by
  refine ⟨rfl, ?_, ?_, ?_⟩
  · cases h : isDev env <;> simp [isProd, h]
  · simp [isDev]
  · intro h
    simp [isProd, isDev, h]

/-- Witness for C9: `NODE_ENV=production`, the empty string, and an unset
variable all select the production configuration. -/
theorem C9_env_partition_witness :
    isProd prodEnv = true ∧ isProd emptyEnv = true ∧
    isProd (fun v => if v == "NODE_ENV" then some "" else none) = true :=
  ⟨(C9_env_partition prodEnv).2.2.2 (by decide),
   (C9_env_partition emptyEnv).2.2.2 (by decide),
   (C9_env_partition (fun v => if v == "NODE_ENV" then some "" else none)).2.2.2
     (by decide)⟩

/-- C10: the exported configuration's `mode` field is the constant string
`development` for every environment and module directory; it is not switched
by the `isDev` boolean that controls the other differences. -/
theorem C10_mode_constant (env : Env) (d : String) :
    (moduleExports env d).mode = "development" := rfl
